import Mathlib

/-!
Shallow embedding of `json_test_data.py`: a script that builds a corpus of
partially random JSON-representable values (`test_object`), prints each value
as one newline-terminated record, appends a shallow copy of the corpus under
the label "object 4", and prints the whole corpus as a final record with no
trailing newline.

Randomness is embedded by parametrising the corpus over a `Draws` record that
holds the result of every `randint` / `choices` call the script makes, in
source order; `Draws.Valid` states exactly the ranges those library calls
guarantee (`randint(a, b)` is inclusive at both ends, `choices(pop, k)` draws
`k` elements of `pop`).  The external serializer `json_with_decimals.dumps` is
not part of this repository, so emission is parametrised over an arbitrary
serializer `dumps : Value → List Char`.
-/

namespace JsonTestData

/-- The JSON-representable Python values the script builds.  `str` is a Python
string as its list of code points.  `decimal s ip fp` embeds
`Decimal(f"{ip}.{fp}")`, with `s = true` for the extra leading minus of
`Decimal(f"-{ip}.{fp}")`; `float n` embeds `float(n)` symbolically (no claim
depends on the IEEE rounding of the conversion).  `obj` keeps insertion order,
as a Python dict does. -/
inductive Value where
  | null
  | bool (b : Bool)
  | str (cps : List Nat)
  | int (n : Int)
  | decimal (s : Bool) (ip fp : Int)
  | float (n : Int)
  | arr (elems : List Value)
  | obj (entries : List (String × Value))

/-- Line 24: `INT_UPPER_LIMIT = 2**100_000`. -/
def INT_UPPER_LIMIT : Nat := 2 ^ 100000

/-- Line 25: `VALID_UTF8_CHARS = list(range(0, 0xD800)) + list(range(0xE000, 0x110000))`. -/
def VALID_UTF8_CHARS : List Nat :=
  List.range 0xD800 ++ List.range' 0xE000 (0x110000 - 0xE000)

/-- Result range of Python `randint(lo, hi)`: inclusive at both ends. -/
def RandInt (lo hi x : Int) : Prop := lo ≤ x ∧ x ≤ hi

/-- A list of `n` independent `randint(lo, hi)` results. -/
def RandIntList (n : Nat) (lo hi : Int) (l : List Int) : Prop :=
  l.length = n ∧ ∀ x ∈ l, RandInt lo hi x

/-- Line 34: `n` code points, each `randint(0, 127)`. -/
def AsciiDraw (n : Nat) (l : List Nat) : Prop :=
  l.length = n ∧ ∀ c ∈ l, c ≤ 127

/-- `n` code points, each drawn by `choices(VALID_UTF8_CHARS, k=n)`. -/
def Utf8Draw (n : Nat) (l : List Nat) : Prop :=
  l.length = n ∧ ∀ c ∈ l, c ∈ VALID_UTF8_CHARS

/-- `n` strings of `k` code points each from `VALID_UTF8_CHARS` (lines 71-72). -/
def Utf8StrsDraw (n k : Nat) (l : List (List Nat)) : Prop :=
  l.length = n ∧ ∀ s ∈ l, Utf8Draw k s

/-- One field per random draw the script makes while building `test_object`,
in source order (lines 34-88).  Negations applied by the script are applied in
`test_object`, not here: each field is the raw `randint` / `choices` result. -/
structure Draws where
  string_ascii : List Nat
  string_utf8 : List Nat
  resizing_integer_1 : Int
  resizing_integer_2 : Int
  negative_resizing_integer_1 : Int
  negative_resizing_integer_2 : Int
  unsigned_8 : Int
  unsigned_16 : Int
  unsigned_24 : Int
  unsigned_32 : Int
  unsigned_64 : Int
  negative_8 : Int
  negative_16 : Int
  negative_24 : Int
  negative_32 : Int
  negative_64 : Int
  big_integer : Int
  negative_big_integer : Int
  decimal_1_int : Int
  decimal_1_frac : Int
  decimal_2_int : Int
  decimal_2_frac : Int
  decimal_3 : Int
  decimal_4 : Int
  bool_array_5 : List Bool
  string_array_1 : List (List Nat)
  string_array_2 : List (List Nat)
  resizing_integer_array : List Int
  negative_resizing_integer_array : List Int
  unsigned_8_array : List Int
  unsigned_16_array : List Int
  unsigned_24_array : List Int
  unsigned_32_array : List Int
  unsigned_64_array : List Int
  negative_8_array : List Int
  negative_16_array : List Int
  negative_24_array : List Int
  negative_32_array : List Int
  negative_64_array : List Int
  big_integer_array : List Int
  negative_big_integer_array : List Int
  decimal_array_int : List Int
  decimal_array_frac : List Int

/-- The ranges the Python random library guarantees for each draw of `Draws`,
read off the corresponding `randint` / `choices` call sites (lines 34-88). -/
structure Draws.Valid (d : Draws) : Prop where
  string_ascii : AsciiDraw 100000 d.string_ascii
  string_utf8 : Utf8Draw 100000 d.string_utf8
  resizing_integer_1 : RandInt 4294967296 72057594037927935 d.resizing_integer_1
  resizing_integer_2 : RandInt 18446744073709551616 (2 ^ 2040 - 1) d.resizing_integer_2
  negative_resizing_integer_1 :
    RandInt 4294967296 72057594037927935 d.negative_resizing_integer_1
  negative_resizing_integer_2 :
    RandInt 18446744073709551616 (2 ^ 2040 - 1) d.negative_resizing_integer_2
  unsigned_8 : RandInt 0 255 d.unsigned_8
  unsigned_16 : RandInt 256 65535 d.unsigned_16
  unsigned_24 : RandInt 65536 16777215 d.unsigned_24
  unsigned_32 : RandInt 16777216 4294967295 d.unsigned_32
  unsigned_64 : RandInt 72057594037927936 18446744073709551615 d.unsigned_64
  negative_8 : RandInt 0 255 d.negative_8
  negative_16 : RandInt 256 65535 d.negative_16
  negative_24 : RandInt 65536 16777215 d.negative_24
  negative_32 : RandInt 16777216 4294967295 d.negative_32
  negative_64 : RandInt 72057594037927936 18446744073709551615 d.negative_64
  big_integer : RandInt (2 ^ 2040) ((INT_UPPER_LIMIT : Nat) : Int) d.big_integer
  negative_big_integer :
    RandInt (2 ^ 2040) ((INT_UPPER_LIMIT : Nat) : Int) d.negative_big_integer
  decimal_1_int : RandInt 0 ((INT_UPPER_LIMIT : Nat) : Int) d.decimal_1_int
  decimal_1_frac : RandInt 0 ((INT_UPPER_LIMIT : Nat) : Int) d.decimal_1_frac
  decimal_2_int : RandInt 0 ((INT_UPPER_LIMIT : Nat) : Int) d.decimal_2_int
  decimal_2_frac : RandInt 0 ((INT_UPPER_LIMIT : Nat) : Int) d.decimal_2_frac
  decimal_3 : RandInt (2 ^ 54) (2 ^ 1000) d.decimal_3
  decimal_4 : RandInt (2 ^ 54) (2 ^ 1000) d.decimal_4
  bool_array_5 : d.bool_array_5.length = 10000
  string_array_1 : Utf8StrsDraw 1000 100 d.string_array_1
  string_array_2 : Utf8StrsDraw 10000 2 d.string_array_2
  resizing_integer_array :
    RandIntList 10000 4294967296 72057594037927935 d.resizing_integer_array
  negative_resizing_integer_array :
    RandIntList 10000 4294967296 72057594037927935 d.negative_resizing_integer_array
  unsigned_8_array : RandIntList 10000 0 255 d.unsigned_8_array
  unsigned_16_array : RandIntList 10000 256 65535 d.unsigned_16_array
  unsigned_24_array : RandIntList 10000 65536 16777215 d.unsigned_24_array
  unsigned_32_array : RandIntList 10000 16777216 4294967295 d.unsigned_32_array
  unsigned_64_array :
    RandIntList 10000 72057594037927936 18446744073709551615 d.unsigned_64_array
  negative_8_array : RandIntList 10000 0 255 d.negative_8_array
  negative_16_array : RandIntList 10000 256 65535 d.negative_16_array
  negative_24_array : RandIntList 10000 65536 16777215 d.negative_24_array
  negative_32_array : RandIntList 10000 16777216 4294967295 d.negative_32_array
  negative_64_array :
    RandIntList 10000 72057594037927936 18446744073709551615 d.negative_64_array
  big_integer_array :
    RandIntList 100 (2 ^ 2040) ((INT_UPPER_LIMIT : Nat) : Int) d.big_integer_array
  negative_big_integer_array :
    RandIntList 100 (2 ^ 2040) ((INT_UPPER_LIMIT : Nat) : Int) d.negative_big_integer_array
  decimal_array_int :
    RandIntList 100 (-((INT_UPPER_LIMIT : Nat) : Int)) ((INT_UPPER_LIMIT : Nat) : Int)
      d.decimal_array_int
  decimal_array_frac :
    RandIntList 100 0 ((INT_UPPER_LIMIT : Nat) : Int) d.decimal_array_frac

/-- A fixed Python string literal as a `Value` (its code points). -/
def pyStr (s : String) : Value := .str (s.data.map Char.toNat)

/-- Lines 29-90: the corpus, an insertion-ordered mapping.  Each entry mirrors
its line in the source; in particular line 74 ("resizing integer array")
negates its samples and line 87 ("negative big integer array") does not, as
the source is written. -/
def test_object (d : Draws) : List (String × Value) := [
  ("boolean true", .bool true),
  ("boolean false", .bool false),
  ("null", .null),
  ("string 0", .str []),
  ("string ascii", .str d.string_ascii),
  ("string utf-8", .str d.string_utf8),
  ("resizing integer 1", .int d.resizing_integer_1),
  ("resizing integer 2", .int d.resizing_integer_2),
  ("negative resizing integer 1", .int (-d.negative_resizing_integer_1)),
  ("negative resizing integer 2", .int (-d.negative_resizing_integer_2)),
  ("unsigned 8-bit defined integer", .int d.unsigned_8),
  ("unsigned 8-bit defined integer 2", .int 0),
  ("unsigned 16-bit defined integer", .int d.unsigned_16),
  ("unsigned 24-bit defined integer", .int d.unsigned_24),
  ("unsigned 32-bit defined integer", .int d.unsigned_32),
  ("unsigned 64-bit defined integer", .int d.unsigned_64),
  ("negative 8-bit defined integer", .int (-d.negative_8)),
  ("negative 16-bit defined integer", .int (-d.negative_16)),
  ("negative 24-bit defined integer", .int (-d.negative_24)),
  ("negative 32-bit defined integer", .int (-d.negative_32)),
  ("negative 64-bit defined integer", .int (-d.negative_64)),
  ("big integer", .int d.big_integer),
  ("negative big integer", .int (-d.negative_big_integer)),
  ("decimal 1", .decimal false d.decimal_1_int d.decimal_1_frac),
  ("decimal 2", .decimal true d.decimal_2_int d.decimal_2_frac),
  ("decimal 3", .float d.decimal_3),
  ("decimal 4", .float (-d.decimal_4)),
  ("object 1", .obj [("meow", pyStr "meow")]),
  ("object 2", .obj []),
  ("object 3", .obj [("meow", .obj [])]),
  ("multi-type array 1", .arr []),
  ("multi-type array 2", .arr (List.replicate 100 (.arr []))),
  ("null array 1", .arr [.null]),
  ("null array 2", .arr (List.replicate 10000 .null)),
  ("bool array 1", .arr [.bool true]),
  ("bool array 2", .arr (List.replicate 10000 (.bool true))),
  ("bool array 3", .arr [.bool false]),
  ("bool array 4", .arr (List.replicate 10000 (.bool false))),
  ("bool array 5", .arr (d.bool_array_5.map Value.bool)),
  ("string array 1", .arr (d.string_array_1.map Value.str)),
  ("string array 2", .arr (d.string_array_2.map Value.str)),
  ("resizing integer array", .arr (d.resizing_integer_array.map (fun x => .int (-x)))),
  ("negative resizing integer array",
    .arr (d.negative_resizing_integer_array.map (fun x => .int (-x)))),
  ("unsigned 8-bit defined integer array", .arr (d.unsigned_8_array.map Value.int)),
  ("unsigned 16-bit defined integer array", .arr (d.unsigned_16_array.map Value.int)),
  ("unsigned 24-bit defined integer array", .arr (d.unsigned_24_array.map Value.int)),
  ("unsigned 32-bit defined integer array", .arr (d.unsigned_32_array.map Value.int)),
  ("unsigned 64-bit defined integer array", .arr (d.unsigned_64_array.map Value.int)),
  ("negative 8-bit defined integer array",
    .arr (d.negative_8_array.map (fun x => .int (-x)))),
  ("negative 16-bit defined integer array",
    .arr (d.negative_16_array.map (fun x => .int (-x)))),
  ("negative 24-bit defined integer array",
    .arr (d.negative_24_array.map (fun x => .int (-x)))),
  ("negative 32-bit defined integer array",
    .arr (d.negative_32_array.map (fun x => .int (-x)))),
  ("negative 64-bit defined integer array",
    .arr (d.negative_64_array.map (fun x => .int (-x)))),
  ("big integer array", .arr (d.big_integer_array.map Value.int)),
  ("negative big integer array", .arr (d.negative_big_integer_array.map Value.int)),
  ("decimal array",
    .arr (List.zipWith (fun a b => Value.decimal false a b)
      d.decimal_array_int d.decimal_array_frac))
]

/-- Lines 92-93: the values of `test_object` in insertion order, with a
shallow copy of the list (taken before the append) appended as last element. -/
def multi_type_array_3 (d : Draws) : List Value :=
  ((test_object d).map Prod.snd) ++ [.arr ((test_object d).map Prod.snd)]

/-- Line 94: the corpus as it stands when the emission loop of line 96 runs. -/
def test_object_full (d : Draws) : List (String × Value) :=
  test_object d ++ [("multi-type array 3", .arr (multi_type_array_3 d))]

/-- Line 99: the corpus after `test_object["object 4"] = copy(test_object)`:
the shallow copy embeds the corpus as it stood before this entry was added. -/
def final_test_object (d : Draws) : List (String × Value) :=
  test_object_full d ++ [("object 4", .obj (test_object_full d))]

/-! ## Emission (lines 27 and 96-101)

Line 27 sets the runtime's integer-to-string digit limit; lines 96-97 print
each corpus value followed by a newline; line 101 prints the final corpus
with `end=""`, so with no trailing newline.  A run is a list of events:
the configuration call, then one stdout write per `print`. -/

/-- Line 27: `2*ceil(log10(INT_UPPER_LIMIT))+1`.  The source computes
`ceil(log10(2**100_000))` with `math.log10`/`math.ceil`; its exact value is
`30103`, the least `k` with `INT_UPPER_LIMIT ≤ 10 ^ k` (`2 ^ 100000` is not a
power of 10), which `ceil_log10_correct` below establishes. -/
def ceil_log10_INT_UPPER_LIMIT : Nat := 30103

/-- The argument of `set_int_max_str_digits` on line 27. -/
def int_max_str_digits : Nat := 2 * ceil_log10_INT_UPPER_LIMIT + 1

/-- An observable step of the script: the `set_int_max_str_digits` call of
line 27, or one stdout write (one `print`). -/
inductive Event where
  | setLimit (n : Nat)
  | write (s : List Char)

/-- The stdout payload of an event. -/
def Event.payload : Event → List Char
  | .setLimit _ => []
  | .write s => s

/-- The script's observable behaviour, parametrised over the external
serializer `dumps`: line 27, then line 96-97's loop (each value serialized and
newline-terminated), then line 101's final record with no trailing newline. -/
def programEvents (dumps : Value → List Char) (d : Draws) : List Event :=
  Event.setLimit int_max_str_digits ::
    ((test_object_full d).map (fun e => Event.write (dumps e.2 ++ ['\n']))
      ++ [Event.write (dumps (.obj (final_test_object d)))])

/-- Everything the script writes to stdout, in order. -/
def stdout_chars (dumps : Value → List Char) (d : Draws) : List Char :=
  ((programEvents dumps d).map Event.payload).flatten

/-- Splitting a character stream strictly on the newline character, the way
the documented consumer protocol reads the output stream. -/
def splitRecords : List Char → List (List Char)
  | [] => [[]]
  | c :: rest =>
    if c = '\n' then [] :: splitRecords rest
    else
      match splitRecords rest with
      | [] => [[c]]
      | r :: rs => (c :: r) :: rs

/-! ## Helper lemmas -/

theorem mem_VALID_UTF8_CHARS {c : Nat} :
    c ∈ VALID_UTF8_CHARS ↔ c < 55296 ∨ (57344 ≤ c ∧ c < 1114112) := by
  unfold VALID_UTF8_CHARS
  simp only [List.mem_append, List.mem_range, List.mem_range'_1]

theorem intUpperLimit_cast : ((INT_UPPER_LIMIT : Nat) : Int) = 2 ^ 100000 := by
  norm_num [INT_UPPER_LIMIT]

theorem randInt_of {lo hi x : Int} (h1 : lo ≤ x) (h2 : x ≤ hi) : RandInt lo hi x :=
  ⟨h1, h2⟩

theorem randInt_lo {lo hi : Int} (h : lo ≤ hi) : RandInt lo hi lo :=
  ⟨le_refl lo, h⟩

theorem randIntList_replicate (n : Nat) {lo hi x : Int} (h : RandInt lo hi x) :
    RandIntList n lo hi (List.replicate n x) :=
  ⟨List.length_replicate n x, fun y hy => by rw [List.eq_of_mem_replicate hy]; exact h⟩

theorem asciiDraw_replicate (n : Nat) {c : Nat} (h : c ≤ 127) :
    AsciiDraw n (List.replicate n c) :=
  ⟨List.length_replicate n c, fun y hy => by rw [List.eq_of_mem_replicate hy]; exact h⟩

theorem utf8Draw_replicate (n : Nat) {c : Nat} (h : c ∈ VALID_UTF8_CHARS) :
    Utf8Draw n (List.replicate n c) :=
  ⟨List.length_replicate n c, fun y hy => by rw [List.eq_of_mem_replicate hy]; exact h⟩

theorem utf8Strs_replicate (n k : Nat) {c : Nat} (h : c ∈ VALID_UTF8_CHARS) :
    Utf8StrsDraw n k (List.replicate n (List.replicate k c)) :=
  ⟨List.length_replicate n _, fun s hs => by
    rw [List.eq_of_mem_replicate hs]; exact utf8Draw_replicate k h⟩

/-- One concrete assignment of every random draw: each `randint` result is the
lower end of its range, each code point is 97 (`'a'`), each mixed boolean is
`true`. -/
def dLow : Draws where
  string_ascii := List.replicate 100000 97
  string_utf8 := List.replicate 100000 97
  resizing_integer_1 := 4294967296
  resizing_integer_2 := 18446744073709551616
  negative_resizing_integer_1 := 4294967296
  negative_resizing_integer_2 := 18446744073709551616
  unsigned_8 := 0
  unsigned_16 := 256
  unsigned_24 := 65536
  unsigned_32 := 16777216
  unsigned_64 := 72057594037927936
  negative_8 := 0
  negative_16 := 256
  negative_24 := 65536
  negative_32 := 16777216
  negative_64 := 72057594037927936
  big_integer := 2 ^ 2040
  negative_big_integer := 2 ^ 2040
  decimal_1_int := 0
  decimal_1_frac := 0
  decimal_2_int := 0
  decimal_2_frac := 0
  decimal_3 := 2 ^ 54
  decimal_4 := 2 ^ 54
  bool_array_5 := List.replicate 10000 true
  string_array_1 := List.replicate 1000 (List.replicate 100 97)
  string_array_2 := List.replicate 10000 (List.replicate 2 97)
  resizing_integer_array := List.replicate 10000 4294967296
  negative_resizing_integer_array := List.replicate 10000 4294967296
  unsigned_8_array := List.replicate 10000 0
  unsigned_16_array := List.replicate 10000 256
  unsigned_24_array := List.replicate 10000 65536
  unsigned_32_array := List.replicate 10000 16777216
  unsigned_64_array := List.replicate 10000 72057594037927936
  negative_8_array := List.replicate 10000 0
  negative_16_array := List.replicate 10000 256
  negative_24_array := List.replicate 10000 65536
  negative_32_array := List.replicate 10000 16777216
  negative_64_array := List.replicate 10000 72057594037927936
  big_integer_array := List.replicate 100 (2 ^ 2040)
  negative_big_integer_array := List.replicate 100 (2 ^ 2040)
  decimal_array_int := List.replicate 100 0
  decimal_array_frac := List.replicate 100 0

theorem dLow_valid : dLow.Valid := by
  constructor
  case string_ascii => exact asciiDraw_replicate _ (by norm_num)
  case string_utf8 => exact utf8Draw_replicate _ (by rw [mem_VALID_UTF8_CHARS]; norm_num)
  case string_array_1 => exact utf8Strs_replicate _ _ (by rw [mem_VALID_UTF8_CHARS]; norm_num)
  case string_array_2 => exact utf8Strs_replicate _ _ (by rw [mem_VALID_UTF8_CHARS]; norm_num)
  case bool_array_5 => exact List.length_replicate _ _
  case resizing_integer_1 =>
    exact randInt_of (by norm_num [dLow, INT_UPPER_LIMIT]) (by norm_num [dLow, INT_UPPER_LIMIT])
  case resizing_integer_2 =>
    exact randInt_of (by norm_num [dLow, INT_UPPER_LIMIT]) (by norm_num [dLow, INT_UPPER_LIMIT])
  case negative_resizing_integer_1 =>
    exact randInt_of (by norm_num [dLow, INT_UPPER_LIMIT]) (by norm_num [dLow, INT_UPPER_LIMIT])
  case negative_resizing_integer_2 =>
    exact randInt_of (by norm_num [dLow, INT_UPPER_LIMIT]) (by norm_num [dLow, INT_UPPER_LIMIT])
  case unsigned_8 =>
    exact randInt_of (by norm_num [dLow, INT_UPPER_LIMIT]) (by norm_num [dLow, INT_UPPER_LIMIT])
  case unsigned_16 =>
    exact randInt_of (by norm_num [dLow, INT_UPPER_LIMIT]) (by norm_num [dLow, INT_UPPER_LIMIT])
  case unsigned_24 =>
    exact randInt_of (by norm_num [dLow, INT_UPPER_LIMIT]) (by norm_num [dLow, INT_UPPER_LIMIT])
  case unsigned_32 =>
    exact randInt_of (by norm_num [dLow, INT_UPPER_LIMIT]) (by norm_num [dLow, INT_UPPER_LIMIT])
  case unsigned_64 =>
    exact randInt_of (by norm_num [dLow, INT_UPPER_LIMIT]) (by norm_num [dLow, INT_UPPER_LIMIT])
  case negative_8 =>
    exact randInt_of (by norm_num [dLow, INT_UPPER_LIMIT]) (by norm_num [dLow, INT_UPPER_LIMIT])
  case negative_16 =>
    exact randInt_of (by norm_num [dLow, INT_UPPER_LIMIT]) (by norm_num [dLow, INT_UPPER_LIMIT])
  case negative_24 =>
    exact randInt_of (by norm_num [dLow, INT_UPPER_LIMIT]) (by norm_num [dLow, INT_UPPER_LIMIT])
  case negative_32 =>
    exact randInt_of (by norm_num [dLow, INT_UPPER_LIMIT]) (by norm_num [dLow, INT_UPPER_LIMIT])
  case negative_64 =>
    exact randInt_of (by norm_num [dLow, INT_UPPER_LIMIT]) (by norm_num [dLow, INT_UPPER_LIMIT])
  case big_integer =>
    exact randInt_of (by norm_num [dLow, INT_UPPER_LIMIT]) (by norm_num [dLow, INT_UPPER_LIMIT])
  case negative_big_integer =>
    exact randInt_of (by norm_num [dLow, INT_UPPER_LIMIT]) (by norm_num [dLow, INT_UPPER_LIMIT])
  case decimal_1_int =>
    exact randInt_of (by norm_num [dLow, INT_UPPER_LIMIT]) (by norm_num [dLow, INT_UPPER_LIMIT])
  case decimal_1_frac =>
    exact randInt_of (by norm_num [dLow, INT_UPPER_LIMIT]) (by norm_num [dLow, INT_UPPER_LIMIT])
  case decimal_2_int =>
    exact randInt_of (by norm_num [dLow, INT_UPPER_LIMIT]) (by norm_num [dLow, INT_UPPER_LIMIT])
  case decimal_2_frac =>
    exact randInt_of (by norm_num [dLow, INT_UPPER_LIMIT]) (by norm_num [dLow, INT_UPPER_LIMIT])
  case decimal_3 =>
    exact randInt_of (by norm_num [dLow, INT_UPPER_LIMIT]) (by norm_num [dLow, INT_UPPER_LIMIT])
  case decimal_4 =>
    exact randInt_of (by norm_num [dLow, INT_UPPER_LIMIT]) (by norm_num [dLow, INT_UPPER_LIMIT])
  case resizing_integer_array =>
    exact randIntList_replicate _
      (randInt_of (by norm_num [INT_UPPER_LIMIT]) (by norm_num [INT_UPPER_LIMIT]))
  case negative_resizing_integer_array =>
    exact randIntList_replicate _
      (randInt_of (by norm_num [INT_UPPER_LIMIT]) (by norm_num [INT_UPPER_LIMIT]))
  case unsigned_8_array =>
    exact randIntList_replicate _
      (randInt_of (by norm_num [INT_UPPER_LIMIT]) (by norm_num [INT_UPPER_LIMIT]))
  case unsigned_16_array =>
    exact randIntList_replicate _
      (randInt_of (by norm_num [INT_UPPER_LIMIT]) (by norm_num [INT_UPPER_LIMIT]))
  case unsigned_24_array =>
    exact randIntList_replicate _
      (randInt_of (by norm_num [INT_UPPER_LIMIT]) (by norm_num [INT_UPPER_LIMIT]))
  case unsigned_32_array =>
    exact randIntList_replicate _
      (randInt_of (by norm_num [INT_UPPER_LIMIT]) (by norm_num [INT_UPPER_LIMIT]))
  case unsigned_64_array =>
    exact randIntList_replicate _
      (randInt_of (by norm_num [INT_UPPER_LIMIT]) (by norm_num [INT_UPPER_LIMIT]))
  case negative_8_array =>
    exact randIntList_replicate _
      (randInt_of (by norm_num [INT_UPPER_LIMIT]) (by norm_num [INT_UPPER_LIMIT]))
  case negative_16_array =>
    exact randIntList_replicate _
      (randInt_of (by norm_num [INT_UPPER_LIMIT]) (by norm_num [INT_UPPER_LIMIT]))
  case negative_24_array =>
    exact randIntList_replicate _
      (randInt_of (by norm_num [INT_UPPER_LIMIT]) (by norm_num [INT_UPPER_LIMIT]))
  case negative_32_array =>
    exact randIntList_replicate _
      (randInt_of (by norm_num [INT_UPPER_LIMIT]) (by norm_num [INT_UPPER_LIMIT]))
  case negative_64_array =>
    exact randIntList_replicate _
      (randInt_of (by norm_num [INT_UPPER_LIMIT]) (by norm_num [INT_UPPER_LIMIT]))
  case big_integer_array =>
    exact randIntList_replicate _
      (randInt_of (by norm_num [INT_UPPER_LIMIT]) (by norm_num [INT_UPPER_LIMIT]))
  case negative_big_integer_array =>
    exact randIntList_replicate _
      (randInt_of (by norm_num [INT_UPPER_LIMIT]) (by norm_num [INT_UPPER_LIMIT]))
  case decimal_array_int =>
    exact randIntList_replicate _
      (randInt_of (by norm_num [INT_UPPER_LIMIT]) (by norm_num [INT_UPPER_LIMIT]))
  case decimal_array_frac =>
    exact randIntList_replicate _
      (randInt_of (by norm_num [INT_UPPER_LIMIT]) (by norm_num [INT_UPPER_LIMIT]))

theorem splitRecords_no_newline {s : List Char} (h : '\n' ∉ s) : splitRecords s = [s] := by
  induction s with
  | nil => rfl
  | cons c rest ih =>
    have hc : ¬ c = '\n' := by intro hh; exact h (by simp [hh])
    have hr : '\n' ∉ rest := by intro hh; exact h (by simp [hh])
    simp [splitRecords, hc, ih hr]

theorem splitRecords_append {r t : List Char} (h : '\n' ∉ r) :
    splitRecords (r ++ '\n' :: t) = r :: splitRecords t := by
  induction r with
  | nil => simp [splitRecords]
  | cons c cs ih =>
    have hc : ¬ c = '\n' := by intro hh; exact h (by simp [hh])
    have hcs : '\n' ∉ cs := by intro hh; exact h (by simp [hh])
    simp [splitRecords, hc, ih hcs]

theorem splitRecords_stream (recs : List (List Char)) (tail : List Char)
    (h : ∀ r ∈ recs, '\n' ∉ r) (ht : '\n' ∉ tail) :
    splitRecords ((recs.map (fun x => x ++ ['\n'])).flatten ++ tail) = recs ++ [tail] := by
  induction recs with
  | nil => simp [splitRecords_no_newline ht]
  | cons r rs ih =>
    have hr : '\n' ∉ r := h r (by simp)
    have hrs : ∀ x ∈ rs, '\n' ∉ x := fun x hx => h x (by simp [hx])
    have hsplit : (r ++ ['\n']) ++ ((rs.map (fun x => x ++ ['\n'])).flatten ++ tail)
        = r ++ '\n' :: ((rs.map (fun x => x ++ ['\n'])).flatten ++ tail) := by simp
    simp only [List.map_cons, List.flatten_cons, List.append_assoc] at *
    rw [hsplit, splitRecords_append hr, ih hrs]
    simp

theorem stdout_chars_eq (dumps : Value → List Char) (d : Draws) :
    stdout_chars dumps d
      = ((test_object_full d).map (fun e => dumps e.2 ++ ['\n'])).flatten
        ++ dumps (.obj (final_test_object d)) := by
  have hcomp : Event.payload ∘ (fun e : String × Value => Event.write (dumps e.2 ++ ['\n']))
      = fun e : String × Value => dumps e.2 ++ ['\n'] := rfl
  simp [stdout_chars, programEvents, Event.payload, List.map_append, List.map_map, hcomp]

/-! ## The claims -/

/-- C1: for each corpus entry in insertion order the script writes exactly one
record holding only the serialized value, newline-terminated; after all
entries it writes the whole corpus-as-mapping as one final record with no
trailing newline, and nothing else: splitting stdout strictly on the newline
character yields exactly the per-entry records in insertion order followed by
the final corpus record.  Holds for every serializer whose records contain no
newline. -/
theorem emitted_stream_records (dumps : Value → List Char) (d : Draws)
    (hnl : ∀ v, '\n' ∉ dumps v) :
    splitRecords (stdout_chars dumps d)
      = (test_object_full d).map (fun e => dumps e.2)
        ++ [dumps (.obj (final_test_object d))] := by
  rw [stdout_chars_eq]
  have h1 : (test_object_full d).map (fun e => dumps e.2 ++ ['\n'])
      = ((test_object_full d).map (fun e => dumps e.2)).map (fun x => x ++ ['\n']) :=
    (List.map_map (fun x => x ++ ['\n']) (fun e : String × Value => dumps e.2)
      (test_object_full d)).symm
  rw [h1]
  refine splitRecords_stream _ _ (fun rr hrr => ?_) (hnl _)
  obtain ⟨e, _, h2⟩ := List.mem_map.mp hrr
  rw [← h2]
  exact hnl e.2

/-- A serializer stub used to exhibit the emission contract at a concrete
input: every value serializes to the single character `r`. -/
def unitSerializer : Value → List Char := fun _ => ['r']

/-- Witness for C1: the emission contract at the concrete draw `dLow` and the
concrete newline-free serializer `unitSerializer`. -/
theorem emitted_stream_records_witness :
    splitRecords (stdout_chars unitSerializer dLow)
      = (test_object_full dLow).map (fun e => unitSerializer e.2)
        ++ [unitSerializer (.obj (final_test_object dLow))] :=
  emitted_stream_records unitSerializer dLow (fun v => by unfold unitSerializer; decide)

/-- C2: the final record is the corpus-as-mapping whose keys are every
previously emitted label plus exactly the one new key "object 4"; the value
under "object 4" is the shallow copy of the corpus taken before that entry was
added, so it holds every other top-level entry and no key "object 4". -/
theorem final_record_object_4 (d : Draws) :
    (final_test_object d).map Prod.fst = (test_object_full d).map Prod.fst ++ ["object 4"]
  ∧ "object 4" ∉ (test_object_full d).map Prod.fst
  ∧ (final_test_object d).lookup "object 4" = some (.obj (test_object_full d))
  ∧ (test_object_full d).lookup "object 4" = none := by
  refine ⟨by simp [final_test_object], ?_, by rfl, by rfl⟩
  simp only [test_object_full, test_object, multi_type_array_3, List.map_append,
    List.map_cons, List.map_nil]
  decide

/-- C5: the "multi-type array 3" entry is the sequence of all prior top-level
corpus values in insertion order with a shallow copy of itself appended: its
last element is exactly the sequence of all its preceding elements. -/
theorem multi_type_array_3_self (d : Draws) :
    (test_object_full d).lookup "multi-type array 3" = some (.arr (multi_type_array_3 d))
  ∧ (multi_type_array_3 d).dropLast = (test_object d).map Prod.snd
  ∧ (multi_type_array_3 d).getLast? = some (.arr ((multi_type_array_3 d).dropLast)) := by
  refine ⟨by rfl, ?_, ?_⟩
  · simp [multi_type_array_3]
  · simp [multi_type_array_3]

/-- C9: the entry labeled "unsigned 8-bit defined integer 2" is the literal
integer 0 for every assignment of the random draws (it is a fixed constant,
an integer value and not a boolean, null or decimal). -/
theorem unsigned_8_bit_2_zero (d : Draws) :
    (test_object d).lookup "unsigned 8-bit defined integer 2" = some (.int 0) := rfl

theorem ceil_log10_correct :
    IsLeast {k : Nat | INT_UPPER_LIMIT ≤ 10 ^ k} ceil_log10_INT_UPPER_LIMIT := by
  constructor
  · show INT_UPPER_LIMIT ≤ 10 ^ 30103
    norm_num [INT_UPPER_LIMIT]
  · intro k hk
    show 30103 ≤ k
    by_contra hlt
    push_neg at hlt
    have h10 : (10 : Nat) ^ k ≤ 10 ^ 30102 := Nat.pow_le_pow_right (by norm_num) (by omega)
    have hk' : INT_UPPER_LIMIT ≤ 10 ^ k := hk
    have hbig : 10 ^ 30102 < INT_UPPER_LIMIT := by norm_num [INT_UPPER_LIMIT]
    omega

/-- C8: the very first event of every run is the configuration call that sets
the integer-to-string digit limit, before any record is written; the
configured value is `2 * c + 1` where `c` is exactly `ceil(log10(2^100000))`,
the least `k` with `INT_UPPER_LIMIT ≤ 10 ^ k` — so the limit is at least
`2 * ceil(log10(INT_UPPER_LIMIT)) + 1` digits. -/
theorem int_max_digits_configured (dumps : Value → List Char) (d : Draws) :
    (programEvents dumps d).head? = some (.setLimit int_max_str_digits)
  ∧ IsLeast {k : Nat | INT_UPPER_LIMIT ≤ 10 ^ k} ceil_log10_INT_UPPER_LIMIT
  ∧ int_max_str_digits = 2 * ceil_log10_INT_UPPER_LIMIT + 1 :=
  ⟨rfl, ceil_log10_correct, rfl⟩

/-- C10: the negative-labeled 8-bit entries are only guaranteed non-positive,
not strictly negative: line 46 and line 81 negate `randint(0, 255)`, whose
range contains 0.  Every such value is at most 0, and the draw assignment
`dLow` (whose 8-bit samples are 0) is a run where the scalar entry equals 0. -/
theorem negative_8_bit_includes_zero :
    (∀ d : Draws, d.Valid →
      ((test_object d).lookup "negative 8-bit defined integer" = some (.int (-d.negative_8))
        ∧ -d.negative_8 ≤ 0)
      ∧ ∃ l : List Int,
          (test_object d).lookup "negative 8-bit defined integer array"
            = some (.arr (l.map Value.int)) ∧ ∀ x ∈ l, x ≤ 0)
  ∧ ∃ d : Draws, d.Valid ∧
      (test_object d).lookup "negative 8-bit defined integer" = some (.int 0) := by
  constructor
  · intro d h
    refine ⟨⟨rfl, ?_⟩, ⟨d.negative_8_array.map (fun y => -y), ?_, ?_⟩⟩
    · obtain ⟨h1, _⟩ := h.negative_8
      omega
    · rw [List.map_map]; rfl
    · intro x hx
      obtain ⟨y, hy, rfl⟩ := List.mem_map.mp hx
      obtain ⟨h1, _⟩ := h.negative_8_array.2 y hy
      omega
  · exact ⟨dLow, dLow_valid, rfl⟩

/-- C3 as the code behaves: under every valid draw assignment, the entry
"resizing integer array" (line 74 negates its samples) holds only integers at
most `-2^32` — all negative — and the entry "negative big integer array"
(line 87 does not negate) holds only integers at least `2^2040` — all
positive.  This contradicts the claim, which puts the first entry in the
positive band `[2^32, 2^56-1]` and the second below zero. -/
theorem resizing_and_negative_big_integer_arrays (d : Draws) (h : d.Valid) :
    (∃ l : List Int,
      (test_object d).lookup "resizing integer array" = some (.arr (l.map Value.int))
        ∧ ∀ x ∈ l, x ≤ -4294967296)
  ∧ (∃ l : List Int,
      (test_object d).lookup "negative big integer array" = some (.arr (l.map Value.int))
        ∧ ∀ x ∈ l, 2 ^ 2040 ≤ x) := by
  constructor
  · refine ⟨d.resizing_integer_array.map (fun y => -y), by rw [List.map_map]; rfl, ?_⟩
    intro x hx
    obtain ⟨y, hy, rfl⟩ := List.mem_map.mp hx
    obtain ⟨h1, _⟩ := h.resizing_integer_array.2 y hy
    omega
  · exact ⟨d.negative_big_integer_array, rfl,
      fun x hx => (h.negative_big_integer_array.2 x hx).1⟩

/-- Witness for the C3 code-behaviour theorem at the concrete draws `dLow`. -/
theorem resizing_and_negative_big_integer_arrays_witness :
    (∃ l : List Int,
      (test_object dLow).lookup "resizing integer array" = some (.arr (l.map Value.int))
        ∧ ∀ x ∈ l, x ≤ -4294967296)
  ∧ (∃ l : List Int,
      (test_object dLow).lookup "negative big integer array" = some (.arr (l.map Value.int))
        ∧ ∀ x ∈ l, 2 ^ 2040 ≤ x) :=
  resizing_and_negative_big_integer_arrays dLow dLow_valid

/-- C4 amended: `randint` is inclusive at both ends, so the "big integer"
entry lies in the closed interval `[2^2040, 2^100000]` (the upper limit is
attainable), and the "negative big integer" entry is the negation of a sample
from that same closed interval. -/
theorem big_integer_closed_range (d : Draws) (h : d.Valid) :
    ((test_object d).lookup "big integer" = some (.int d.big_integer)
      ∧ 2 ^ 2040 ≤ d.big_integer ∧ d.big_integer ≤ 2 ^ 100000)
  ∧ ((test_object d).lookup "negative big integer" = some (.int (-d.negative_big_integer))
      ∧ 2 ^ 2040 ≤ d.negative_big_integer ∧ d.negative_big_integer ≤ 2 ^ 100000) := by
  obtain ⟨b1, b2⟩ := h.big_integer
  obtain ⟨n1, n2⟩ := h.negative_big_integer
  exact ⟨⟨rfl, b1, b2.trans (le_of_eq intUpperLimit_cast)⟩,
    ⟨rfl, n1, n2.trans (le_of_eq intUpperLimit_cast)⟩⟩

/-- Witness for the amended C4 at the concrete draws `dLow`. -/
theorem big_integer_closed_range_witness :
    ((test_object dLow).lookup "big integer" = some (.int dLow.big_integer)
      ∧ 2 ^ 2040 ≤ dLow.big_integer ∧ dLow.big_integer ≤ 2 ^ 100000)
  ∧ ((test_object dLow).lookup "negative big integer"
        = some (.int (-dLow.negative_big_integer))
      ∧ 2 ^ 2040 ≤ dLow.negative_big_integer ∧ dLow.negative_big_integer ≤ 2 ^ 100000) :=
  big_integer_closed_range dLow dLow_valid

/-- The draws `dLow` with the "big integer" sample at the top of `randint`'s
inclusive range: `randint(2**2040, INT_UPPER_LIMIT)` can return
`INT_UPPER_LIMIT` itself. -/
def dHi : Draws := { dLow with big_integer := 2 ^ 100000 }

theorem dHi_valid : dHi.Valid :=
  ⟨dLow_valid.string_ascii, dLow_valid.string_utf8, dLow_valid.resizing_integer_1,
    dLow_valid.resizing_integer_2, dLow_valid.negative_resizing_integer_1,
    dLow_valid.negative_resizing_integer_2, dLow_valid.unsigned_8, dLow_valid.unsigned_16,
    dLow_valid.unsigned_24, dLow_valid.unsigned_32, dLow_valid.unsigned_64,
    dLow_valid.negative_8, dLow_valid.negative_16, dLow_valid.negative_24,
    dLow_valid.negative_32, dLow_valid.negative_64,
    ⟨by norm_num [dHi, dLow], le_of_eq intUpperLimit_cast.symm⟩,
    dLow_valid.negative_big_integer, dLow_valid.decimal_1_int, dLow_valid.decimal_1_frac,
    dLow_valid.decimal_2_int, dLow_valid.decimal_2_frac, dLow_valid.decimal_3,
    dLow_valid.decimal_4, dLow_valid.bool_array_5, dLow_valid.string_array_1,
    dLow_valid.string_array_2, dLow_valid.resizing_integer_array,
    dLow_valid.negative_resizing_integer_array, dLow_valid.unsigned_8_array,
    dLow_valid.unsigned_16_array, dLow_valid.unsigned_24_array, dLow_valid.unsigned_32_array,
    dLow_valid.unsigned_64_array, dLow_valid.negative_8_array, dLow_valid.negative_16_array,
    dLow_valid.negative_24_array, dLow_valid.negative_32_array, dLow_valid.negative_64_array,
    dLow_valid.big_integer_array, dLow_valid.negative_big_integer_array,
    dLow_valid.decimal_array_int, dLow_valid.decimal_array_frac⟩

/-- Counterexample to C4 as stated: `dHi` is a possible assignment of the
random draws (every sample within its `randint` range), under which the
"big integer" entry equals `2^100000` — not strictly less than `2^100000`,
so the half-open interval `[2^2040, 2^100000)` of the claim is wrong. -/
theorem big_integer_upper_limit_attained :
    dHi.Valid
  ∧ (test_object dHi).lookup "big integer" = some (.int (2 ^ 100000))
  ∧ ¬ ((2 ^ 100000 : Int) < 2 ^ 100000) :=
  ⟨dHi_valid, rfl, lt_irrefl _⟩

/-- The corpus entry `label` is an integer lying in `[lo, hi]`. -/
def EntryIntBand (d : Draws) (label : String) (lo hi : Int) : Prop :=
  ∃ v : Int, (test_object d).lookup label = some (.int v) ∧ lo ≤ v ∧ v ≤ hi

/-- The corpus entry `label` is an array of integers all lying in `[lo, hi]`. -/
def EntryIntArrayBand (d : Draws) (label : String) (lo hi : Int) : Prop :=
  ∃ l : List Int, (test_object d).lookup label = some (.arr (l.map Value.int))
    ∧ ∀ x ∈ l, lo ≤ x ∧ x ≤ hi

theorem negMap_band {lo hi : Int} {l : List Int} (hl : ∀ x ∈ l, RandInt lo hi x) :
    ∀ x ∈ l.map (fun y => -y), -hi ≤ x ∧ x ≤ -lo := by
  intro x hx
  obtain ⟨y, hy, rfl⟩ := List.mem_map.mp hx
  obtain ⟨h1, h2⟩ := hl y hy
  omega

/-- C6's bands: for each unsigned defined width in {16, 24, 32, 64}, the
scalar entry and every element of the 10,000-element array lie strictly above
the previous width's maximum and at or below the current width's maximum, and
the negated categories lie in the negated bands. -/
def DefinedWidthBands (d : Draws) : Prop :=
    EntryIntBand d "unsigned 16-bit defined integer" 256 65535
  ∧ EntryIntArrayBand d "unsigned 16-bit defined integer array" 256 65535
  ∧ EntryIntBand d "unsigned 24-bit defined integer" 65536 16777215
  ∧ EntryIntArrayBand d "unsigned 24-bit defined integer array" 65536 16777215
  ∧ EntryIntBand d "unsigned 32-bit defined integer" 16777216 4294967295
  ∧ EntryIntArrayBand d "unsigned 32-bit defined integer array" 16777216 4294967295
  ∧ EntryIntBand d "unsigned 64-bit defined integer" 4294967296 18446744073709551615
  ∧ EntryIntArrayBand d "unsigned 64-bit defined integer array"
      4294967296 18446744073709551615
  ∧ EntryIntBand d "negative 16-bit defined integer" (-65535) (-256)
  ∧ EntryIntArrayBand d "negative 16-bit defined integer array" (-65535) (-256)
  ∧ EntryIntBand d "negative 24-bit defined integer" (-16777215) (-65536)
  ∧ EntryIntArrayBand d "negative 24-bit defined integer array" (-16777215) (-65536)
  ∧ EntryIntBand d "negative 32-bit defined integer" (-4294967295) (-16777216)
  ∧ EntryIntArrayBand d "negative 32-bit defined integer array" (-4294967295) (-16777216)
  ∧ EntryIntBand d "negative 64-bit defined integer"
      (-18446744073709551615) (-4294967296)
  ∧ EntryIntArrayBand d "negative 64-bit defined integer array"
      (-18446744073709551615) (-4294967296)

/-- C6: under every valid draw assignment the 16/24/32/64-bit defined-width
entries (scalar and array) sit inside their band `(previous max, current max]`
and the negated categories inside the negated bands.  The 64-bit samples start
at `2^56`, inside the claimed band `(2^32-1, 2^64-1]`. -/
theorem defined_width_band_coverage (d : Draws) (h : d.Valid) : DefinedWidthBands d := by
  refine ⟨⟨d.unsigned_16, rfl, h.unsigned_16⟩,
    ⟨d.unsigned_16_array, rfl, h.unsigned_16_array.2⟩,
    ⟨d.unsigned_24, rfl, h.unsigned_24⟩,
    ⟨d.unsigned_24_array, rfl, h.unsigned_24_array.2⟩,
    ⟨d.unsigned_32, rfl, h.unsigned_32⟩,
    ⟨d.unsigned_32_array, rfl, h.unsigned_32_array.2⟩,
    ⟨d.unsigned_64, rfl, ?_⟩, ⟨d.unsigned_64_array, rfl, ?_⟩,
    ⟨-d.negative_16, rfl, ?_⟩,
    ⟨d.negative_16_array.map (fun y => -y), by rw [List.map_map]; rfl,
      negMap_band h.negative_16_array.2⟩,
    ⟨-d.negative_24, rfl, ?_⟩,
    ⟨d.negative_24_array.map (fun y => -y), by rw [List.map_map]; rfl,
      negMap_band h.negative_24_array.2⟩,
    ⟨-d.negative_32, rfl, ?_⟩,
    ⟨d.negative_32_array.map (fun y => -y), by rw [List.map_map]; rfl,
      negMap_band h.negative_32_array.2⟩,
    ⟨-d.negative_64, rfl, ?_⟩,
    ⟨d.negative_64_array.map (fun y => -y), by rw [List.map_map]; rfl, ?_⟩⟩
  · obtain ⟨h1, h2⟩ := h.unsigned_64
    constructor <;> omega
  · intro x hx
    obtain ⟨h1, h2⟩ := h.unsigned_64_array.2 x hx
    constructor <;> omega
  · obtain ⟨h1, h2⟩ := h.negative_16
    constructor <;> omega
  · obtain ⟨h1, h2⟩ := h.negative_24
    constructor <;> omega
  · obtain ⟨h1, h2⟩ := h.negative_32
    constructor <;> omega
  · obtain ⟨h1, h2⟩ := h.negative_64
    constructor <;> omega
  · intro x hx
    obtain ⟨y, hy, rfl⟩ := List.mem_map.mp hx
    obtain ⟨h1, h2⟩ := h.negative_64_array.2 y hy
    constructor <;> omega

/-- Witness for C6 at the concrete draws `dLow`. -/
theorem defined_width_band_coverage_witness : DefinedWidthBands dLow :=
  defined_width_band_coverage dLow dLow_valid

/-- Code points outside the surrogate range U+D800-U+DFFF. -/
def SurrogateFree (c : Nat) : Prop := c < 55296 ∨ 57344 ≤ c

instance surrogateFree_decidable : DecidablePred SurrogateFree :=
  fun c => inferInstanceAs (Decidable (c < 55296 ∨ 57344 ≤ c))

/-- Every string anywhere inside a value (scalar strings, string-array
elements, strings nested in arrays and objects) consists only of code points
outside the surrogate range. -/
inductive StringsOk : Value → Prop where
  | null : StringsOk .null
  | bool (b : Bool) : StringsOk (.bool b)
  | int (n : Int) : StringsOk (.int n)
  | decimal (s : Bool) (ip fp : Int) : StringsOk (.decimal s ip fp)
  | float (n : Int) : StringsOk (.float n)
  | str (cps : List Nat) : (∀ c ∈ cps, SurrogateFree c) → StringsOk (.str cps)
  | arr (elems : List Value) : (∀ v ∈ elems, StringsOk v) → StringsOk (.arr elems)
  | obj (entries : List (String × Value)) : (∀ e ∈ entries, StringsOk e.2) →
      StringsOk (.obj entries)

theorem surrogateFree_of_valid {c : Nat} (h : c ∈ VALID_UTF8_CHARS) : SurrogateFree c := by
  rcases mem_VALID_UTF8_CHARS.mp h with h1 | ⟨h2, _⟩
  · exact Or.inl h1
  · exact Or.inr h2

theorem stringsOk_str_utf8 {s : List Nat} (hs : ∀ c ∈ s, c ∈ VALID_UTF8_CHARS) :
    StringsOk (.str s) :=
  .str s (fun c hc => surrogateFree_of_valid (hs c hc))

theorem stringsOk_arr_nil : StringsOk (.arr []) := .arr [] (by simp)

theorem stringsOk_obj_nil : StringsOk (.obj []) := .obj [] (by simp)

theorem stringsOk_singleton {v : Value} (hv : StringsOk v) : StringsOk (.arr [v]) :=
  .arr [v] (by intro x hx; rw [List.mem_singleton] at hx; rwa [hx])

theorem stringsOk_replicate (n : Nat) {v : Value} (hv : StringsOk v) :
    StringsOk (.arr (List.replicate n v)) :=
  .arr _ (fun x hx => by rw [List.eq_of_mem_replicate hx]; exact hv)

theorem stringsOk_bool_map (l : List Bool) : StringsOk (.arr (l.map Value.bool)) :=
  .arr _ (fun v hv => by obtain ⟨b, _, rfl⟩ := List.mem_map.mp hv; exact .bool b)

theorem stringsOk_int_map (l : List Int) : StringsOk (.arr (l.map Value.int)) :=
  .arr _ (fun v hv => by obtain ⟨x, _, rfl⟩ := List.mem_map.mp hv; exact .int x)

theorem stringsOk_int_neg_map (l : List Int) :
    StringsOk (.arr (l.map (fun x => Value.int (-x)))) :=
  .arr _ (fun v hv => by obtain ⟨x, _, rfl⟩ := List.mem_map.mp hv; exact .int (-x))

theorem stringsOk_str_map {k : Nat} {l : List (List Nat)} (hl : ∀ s ∈ l, Utf8Draw k s) :
    StringsOk (.arr (l.map Value.str)) :=
  .arr _ (fun v hv => by
    obtain ⟨s, hs, rfl⟩ := List.mem_map.mp hv
    exact stringsOk_str_utf8 (hl s hs).2)

theorem stringsOk_zipWith_decimal :
    ∀ (l1 l2 : List Int),
      StringsOk (.arr (List.zipWith (fun a b => Value.decimal false a b) l1 l2))
  | [], _ => .arr _ (by simp)
  | _ :: _, [] => .arr _ (by simp)
  | a :: t, b :: t2 => by
    have ih := stringsOk_zipWith_decimal t t2
    refine .arr _ ?_
    intro v hv
    rw [List.zipWith_cons_cons] at hv
    rcases List.mem_cons.mp hv with rfl | hmem
    · exact .decimal false a b
    · cases ih with
      | arr _ hall => exact hall v hmem

theorem stringsOk_values (d : Draws) (h : d.Valid) :
    ∀ v ∈ (test_object d).map Prod.snd, StringsOk v := by
  intro v hv
  simp only [test_object, List.map_cons, List.map_nil, List.mem_cons,
    List.not_mem_nil, or_false] at hv
  rcases hv with rfl|rfl|rfl|rfl|rfl|rfl|rfl|rfl|rfl|rfl|rfl|rfl|rfl|rfl|rfl|rfl|rfl|rfl|rfl|rfl|rfl|rfl|rfl|rfl|rfl|rfl|rfl|rfl|rfl|rfl|rfl|rfl|rfl|rfl|rfl|rfl|rfl|rfl|rfl|rfl|rfl|rfl|rfl|rfl|rfl|rfl|rfl|rfl|rfl|rfl|rfl|rfl|rfl|rfl|rfl|rfl
  all_goals first
    | exact .null
    | exact .bool _
    | exact .int _
    | exact .decimal _ _ _
    | exact .float _
    | exact stringsOk_arr_nil
    | exact stringsOk_obj_nil
    | exact stringsOk_int_map _
    | exact stringsOk_int_neg_map _
    | exact stringsOk_zipWith_decimal _ _
    | exact stringsOk_bool_map _
    | exact stringsOk_singleton .null
    | exact stringsOk_singleton (.bool _)
    | exact stringsOk_replicate _ .null
    | exact stringsOk_replicate _ (.bool _)
    | exact stringsOk_replicate _ stringsOk_arr_nil
    | exact stringsOk_str_utf8 h.string_utf8.2
    | exact stringsOk_str_map h.string_array_1.2
    | exact stringsOk_str_map h.string_array_2.2
    | exact .str _ (by simp)
    | exact .str _ (fun c hc => Or.inl (lt_of_le_of_lt (h.string_ascii.2 c hc) (by norm_num)))
    | exact .obj _ (by intro e he; rw [List.mem_singleton] at he; subst he; exact .str _ (by decide))
    | exact .obj _ (by intro e he; rw [List.mem_singleton] at he; subst he; exact stringsOk_obj_nil)

theorem stringsOk_mta3 (d : Draws) (h : d.Valid) :
    StringsOk (.arr (multi_type_array_3 d)) := by
  refine .arr _ ?_
  intro v hv
  simp only [multi_type_array_3] at hv
  rcases List.mem_append.mp hv with hmem | hmem
  · exact stringsOk_values d h v hmem
  · rw [List.mem_singleton] at hmem
    subst hmem
    exact .arr _ (stringsOk_values d h)

theorem stringsOk_full (d : Draws) (h : d.Valid) :
    ∀ e ∈ test_object_full d, StringsOk e.2 := by
  intro e he
  simp only [test_object_full] at he
  rcases List.mem_append.mp he with hmem | hmem
  · exact stringsOk_values d h e.2 (List.mem_map_of_mem Prod.snd hmem)
  · rw [List.mem_singleton] at hmem
    subst hmem
    exact stringsOk_mta3 d h

/-- C7: every string occurring anywhere in the corpus (including inside the
self-copies) consists only of code points outside the surrogate range
U+D800-U+DFFF; "string ascii" has exactly 100,000 code points all in `[0,128)`
and "string utf-8" exactly 100,000 code points from the full non-surrogate
range below `0x110000`. -/
theorem corpus_strings_surrogate_free (d : Draws) (h : d.Valid) :
    StringsOk (.obj (final_test_object d))
  ∧ (test_object d).lookup "string ascii" = some (.str d.string_ascii)
  ∧ d.string_ascii.length = 100000
  ∧ (∀ c ∈ d.string_ascii, c < 128)
  ∧ (test_object d).lookup "string utf-8" = some (.str d.string_utf8)
  ∧ d.string_utf8.length = 100000
  ∧ (∀ c ∈ d.string_utf8, SurrogateFree c ∧ c < 1114112) := by
  refine ⟨?_, rfl, h.string_ascii.1, ?_, rfl, h.string_utf8.1, ?_⟩
  · refine .obj _ ?_
    intro e he
    simp only [final_test_object] at he
    rcases List.mem_append.mp he with hmem | hmem
    · exact stringsOk_full d h e hmem
    · rw [List.mem_singleton] at hmem
      subst hmem
      exact .obj _ (stringsOk_full d h)
  · intro c hc
    exact lt_of_le_of_lt (h.string_ascii.2 c hc) (by norm_num)
  · intro c hc
    rcases mem_VALID_UTF8_CHARS.mp (h.string_utf8.2 c hc) with h1 | ⟨h2, h3⟩
    · exact ⟨Or.inl h1, by omega⟩
    · exact ⟨Or.inr h2, h3⟩

/-- Witness for C7 at the concrete draws `dLow`. -/
theorem corpus_strings_surrogate_free_witness :
    StringsOk (.obj (final_test_object dLow))
  ∧ (test_object dLow).lookup "string ascii" = some (.str dLow.string_ascii)
  ∧ dLow.string_ascii.length = 100000
  ∧ (∀ c ∈ dLow.string_ascii, c < 128)
  ∧ (test_object dLow).lookup "string utf-8" = some (.str dLow.string_utf8)
  ∧ dLow.string_utf8.length = 100000
  ∧ (∀ c ∈ dLow.string_utf8, SurrogateFree c ∧ c < 1114112) :=
  corpus_strings_surrogate_free dLow dLow_valid

end JsonTestData
